import Mathlib

/-!
Shallow embedding of the Product Store Service (`service/routes.py`):
the list-endpoint filter dispatch and the update-endpoint field-transform
table, together with a model of the external persistence collaborator
(`service/models.py` is not part of the sources; the spec describes it as
an external store exposing `find`, `all`, `find_by_name`,
`find_by_category`, `find_by_availability`, `update`, `serialize`).
-/

namespace ProductService

/-- Untyped JSON values as delivered by `request.get_json()`.
Python keeps `bool` and `int` apart (`isinstance(10, bool)` is `False`),
so the embedding keeps separate constructors. -/
inductive JVal where
  | jnull : JVal
  | jbool (b : Bool) : JVal
  | jint (n : Int) : JVal
  | jstr (s : String) : JVal
  | jarr (xs : List JVal) : JVal
  | jobj (fields : List (String × JVal)) : JVal

/-- Modelled from the spec: the category enumeration is a "fixed set of named
categories plus an `UNKNOWN` default" (`service/models.py` is not among the
sources). The member names are the ones the tests exercise (`UNKNOWN`,
`CLOTHS`, `HOUSEWARES`) plus the remaining members of the upstream catalog. -/
inductive Category where
  | UNKNOWN : Category
  | CLOTHS : Category
  | FOOD : Category
  | HOUSEWARES : Category
  | AUTOMOTIVE : Category
  | TOOLS : Category
  deriving Repr, DecidableEq

/-- Name of a category member, as used on the wire. -/
def Category.memberName : Category → String
  | .UNKNOWN => "UNKNOWN"
  | .CLOTHS => "CLOTHS"
  | .FOOD => "FOOD"
  | .HOUSEWARES => "HOUSEWARES"
  | .AUTOMOTIVE => "AUTOMOTIVE"
  | .TOOLS => "TOOLS"

/-- Lookup of a category by member name: `Category.__members__` /
`Category.__getitem__`. `none` models a name that is not a member. -/
def Category.ofName (s : String) : Option Category :=
  if s = "UNKNOWN" then some .UNKNOWN
  else if s = "CLOTHS" then some .CLOTHS
  else if s = "FOOD" then some .FOOD
  else if s = "HOUSEWARES" then some .HOUSEWARES
  else if s = "AUTOMOTIVE" then some .AUTOMOTIVE
  else if s = "TOOLS" then some .TOOLS
  else none

/-- Exact decimal value: `mantissa / 10 ^ scale`. Models Python's
`decimal.Decimal` (an exact, not floating-point, number). -/
structure Dec where
  mantissa : Int
  scale : Nat
  deriving Repr, DecidableEq

/-- Numeric characters. -/
def isDig (c : Char) : Bool := '0' ≤ c && c ≤ '9'

/-- Value of a digit string, most significant first. -/
def digitsToNat (cs : List Char) : Nat :=
  cs.foldl (fun a c => a * 10 + (c.toNat - '0'.toNat)) 0

/-- Modelled from the spec: the "lossless decimal parse" performed by
`Decimal(value)` on decimal text (`[sign] digits [. digits]`, at least one
digit). `none` models the `InvalidOperation` exception Python raises on a
string that is not valid decimal text (for example `"abc"`). -/
def parseDecimal (s : String) : Option Dec :=
  let cs := s.toList
  let (neg, rest) :=
    match cs with
    | '-' :: r => (true, r)
    | '+' :: r => (false, r)
    | r => (false, r)
  let intPart := rest.takeWhile isDig
  let rest2 := rest.dropWhile isDig
  match rest2 with
  | [] =>
    if intPart.isEmpty then none
    else some ⟨(if neg then -1 else 1) * (digitsToNat intPart : Int), 0⟩
  | '.' :: tail =>
    let frac := tail.takeWhile isDig
    let rest3 := tail.dropWhile isDig
    if rest3.isEmpty && !(intPart.isEmpty && frac.isEmpty) then
      some ⟨(if neg then -1 else 1) *
              ((digitsToNat intPart * 10 ^ frac.length + digitsToNat frac : Nat) : Int),
            frac.length⟩
    else none
  | _ => none

/-- Rendering of a decimal back to wire text (`str(Decimal(...))`),
keeping the digits the scale records. -/
def decToString (d : Dec) : String :=
  let digs := (toString d.mantissa.natAbs).toList
  let digs := if digs.length ≤ d.scale then List.replicate (d.scale + 1 - digs.length) '0' ++ digs else digs
  let intPart := digs.take (digs.length - d.scale)
  let fracPart := digs.drop (digs.length - d.scale)
  (if d.mantissa < 0 then "-" else "") ++ String.mk intPart ++
    (if d.scale = 0 then "" else "." ++ String.mk fracPart)

mutual
/-- Python `repr` of a JSON value, used inside `str` of containers. -/
def pyRepr : JVal → String
  | .jnull => "None"
  | .jbool b => if b then "True" else "False"
  | .jint n => toString n
  | .jstr s => "'" ++ s ++ "'"
  | .jarr xs => "[" ++ String.intercalate ", " (pyReprList xs) ++ "]"
  | .jobj fs => "\x7b" ++ String.intercalate ", " (pyReprFields fs) ++ "\x7d"

/-- Helper for `pyRepr` over array elements. -/
def pyReprList : List JVal → List String
  | [] => []
  | v :: vs => pyRepr v :: pyReprList vs

/-- Helper for `pyRepr` over object fields. -/
def pyReprFields : List (String × JVal) → List String
  | [] => []
  | (k, v) :: fs => ("'" ++ k ++ "': " ++ pyRepr v) :: pyReprFields fs
end

/-- Python `str(value)`, as interpolated by the f-string error messages. -/
def pyStr : JVal → String
  | .jstr s => s
  | v => pyRepr v

/-- The Product entity (data record with typed fields). Modelled from the
spec's data model; the entity class lives in `service/models.py`, which is
not among the sources. -/
structure Product where
  id : Nat
  name : String
  description : String
  price : Dec
  available : Bool
  category : Category
  deriving Repr, DecidableEq

/-- Serialization to wire JSON: `{id, name, description, price (decimal
text), available, category (member name)}`. Modelled from the spec's wire
format. -/
def serialize (p : Product) : JVal :=
  .jobj [("id", .jint p.id), ("name", .jstr p.name),
         ("description", .jstr p.description),
         ("price", .jstr (decToString p.price)),
         ("available", .jbool p.available),
         ("category", .jstr p.category.memberName)]

/-- The persistence collaborator, modelled as the list of persisted
products. -/
abbrev Store := List Product

/-- Modelled from the spec: `Product.all()` returns every persisted
product. -/
def Store.allProducts (st : Store) : List Product := st

/-- Modelled from the spec: `Product.find(id)` returns the persisted
product with that id, or absent. -/
def Store.findProd (st : Store) (i : Nat) : Option Product :=
  (Store.allProducts st).find? (fun p => p.id = i)

/-- Modelled from the spec: `Product.find_by_name(name)` returns all
products with that exact name. -/
def Store.find_by_name (st : Store) (n : String) : List Product :=
  (Store.allProducts st).filter (fun p => p.name = n)

/-- Modelled from the spec: `Product.find_by_category(cat)` returns all
products of that category. -/
def Store.find_by_category (st : Store) (c : Category) : List Product :=
  (Store.allProducts st).filter (fun p => p.category = c)

/-- Modelled from the spec: `Product.find_by_availability(b)` returns all
products matching that boolean. -/
def Store.find_by_availability (st : Store) (b : Bool) : List Product :=
  (Store.allProducts st).filter (fun p => p.available = b)

/-- Modelled from the spec: `product.update()` persists the in-place
mutations of the entity, replacing the stored product with the same id. -/
def Store.persistUpdate (st : Store) (p : Product) : Store :=
  (Store.allProducts st).map (fun q => if q.id = p.id then p else q)

/-! List endpoint: filter dispatch (`routes.py`, lines 103-168). -/

/-- The `ResponseError` dataclass: stores response errors to differentiate
them from product iterators.  `body` and `status` as in the source; the
default status is 400 (`HTTP_400_BAD_REQUEST`). -/
structure ResponseError where
  body : String
  status : Nat := 400

/-- Result of a filter function: either a `ResponseError` or an iterable of
products (the code distinguishes the two with `isinstance`). -/
inductive FilterResult where
  | err (e : ResponseError) : FilterResult
  | ok (products : List Product) : FilterResult

/-- The `filter_by_name` function: validates the raw name, then filters
products by it. -/
def filter_by_name (st : Store) (name : String) : FilterResult :=
  if name = "" then
    .err { body := "name must not be empty", status := 400 }
  else
    .ok (Store.find_by_name st name)

/-- The `filter_by_category` function: validates the raw category, then
filters products by it. -/
def filter_by_category (st : Store) (category : String) : FilterResult :=
  match Category.ofName category with
  | none => .err { body := "category '" ++ category ++ "' is not valid", status := 400 }
  | some c => .ok (Store.find_by_category st c)

/-- The `filter_by_availability` function: validates the raw availability,
then filters products by it. -/
def filter_by_availability (st : Store) (available : String) : FilterResult :=
  if available = "true" || available = "false" then
    .ok (Store.find_by_availability st (available = "true"))
  else
    .err { body := "available value '" ++ available ++ "' is not true or false", status := 400 }

/-- The registered, ordered filter list `filters`. -/
def filters : List (String × (Store → String → FilterResult)) :=
  [("name", filter_by_name),
   ("category", filter_by_category),
   ("available", filter_by_availability)]

/-- Query parameters of a request (`request.args`), as an ordered list of
key/value pairs; `get` returns the first value for the key, `none` models a
key that is not present. -/
def argsGet (args : List (String × String)) (k : String) : Option String :=
  (args.find? (fun kv => kv.1 = k)).map (fun kv => kv.2)

/-- Response of the list endpoint: a JSON body (list of serialized
products) or a plain-text error tuple. -/
inductive ListResponse where
  | body (items : List JVal) : ListResponse
  | err (body : String) (status : Nat) : ListResponse

/-- The `for key, filter_func in filters` loop of `list_products`: a key
absent from the query is skipped (`continue`); the first present key runs
its filter and returns (error response or serialized products). -/
def dispatchFilters (st : Store) (args : List (String × String)) :
    List (String × (Store → String → FilterResult)) → ListResponse
  | [] => .body ((Store.allProducts st).map serialize)
  | (key, filter_func) :: rest =>
    match argsGet args key with
    | none => dispatchFilters st args rest
    | some v =>
      match filter_func st v with
      | .err e => .err e.body e.status
      | .ok products => .body (products.map serialize)

/-- The `list_products` handler (`GET /products`): responds with a list of
products filterable by query. -/
def list_products (st : Store) (args : List (String × String)) : ListResponse :=
  dispatchFilters st args filters

/-! Update endpoint: field-update transform table (`routes.py`,
lines 187-225). -/

/-- A converted field value: the identity conversion keeps the raw JSON
value; `Decimal` produces a decimal; `Category.__getitem__` produces a
category member. -/
inductive Converted where
  | raw (v : JVal) : Converted
  | dec (d : Dec) : Converted
  | cat (c : Category) : Converted

/-- The `Transform` dataclass: holds a validator and a converter together
for a specific product field.  `converts = none` models the `None` default
(identity); a converter returning `none` models an exception escaping the
handler (only `Decimal` can raise here). -/
structure Transform where
  «matches» : JVal → Bool
  converts : Option (JVal → Option Converted) := none

/-- The `Decimal` constructor as a converter (applied unguarded in the
source).  On a string it is the lossless decimal parse; a failing parse is
an `InvalidOperation` exception, modelled by `none`. -/
def decimalConvert (v : JVal) : Option Converted :=
  match v with
  | .jstr s => (parseDecimal s).map .dec
  | .jint n => some (.dec ⟨n, 0⟩)
  | _ => none

/-- The `Category.__getitem__` converter: looks the member name up (never
reached on a non-member, since the predicate checked membership). -/
def categoryConvert (v : JVal) : Option Converted :=
  match v with
  | .jstr s => (Category.ofName s).map .cat
  | _ => none

/-- The `updateable` registry (`dict.get` view): maps a field name to its
`Transform`.  Predicates are the `isinstance` / membership checks of the
source; `none` models a key that is not in the dict. -/
def updateable (k : String) : Option Transform :=
  if k = "name" then
    some { «matches» := fun x => match x with | .jstr _ => true | _ => false }
  else if k = "description" then
    some { «matches» := fun x => match x with | .jstr _ => true | _ => false }
  else if k = "available" then
    some { «matches» := fun x => match x with | .jbool _ => true | _ => false }
  else if k = "price" then
    some { «matches» := fun x => match x with | .jstr _ => true | _ => false,
           converts := some decimalConvert }
  else if k = "category" then
    some { «matches» := fun x => match x with
             | .jstr s => (Category.ofName s).isSome
             | _ => false,
           converts := some categoryConvert }
  else none

/-- The `setattr(product, key, converted)` step.  The handler only reaches
well-typed key/value combinations (the predicate and converter guarantee
the shape); any other combination leaves the entity unchanged. -/
def setField (p : Product) (key : String) (c : Converted) : Product :=
  match key, c with
  | "name", .raw (.jstr s) => { p with name := s }
  | "description", .raw (.jstr s) => { p with description := s }
  | "available", .raw (.jbool b) => { p with available := b }
  | "price", .dec d => { p with price := d }
  | "category", .cat ct => { p with category := ct }
  | _, _ => p

/-- Outcome of the `for key, value in data.items()` loop, carrying the
in-memory entity as mutated so far (no rollback). -/
inductive LoopResult where
  | ok (p : Product) : LoopResult
  | fail (p : Product) (body : String) (status : Nat) : LoopResult
  | crash (p : Product) (msg : String) : LoopResult

/-- The field-update loop of `update_product`: unknown key → 422, value
failing the predicate → 422, otherwise convert (identity when the
transform has no converter; a converter exception escapes as a crash) and
assign the field, continuing with the mutated entity. -/
def applyUpdates (p : Product) : List (String × JVal) → LoopResult
  | [] => .ok p
  | (key, value) :: rest =>
    match updateable key with
    | none => .fail p ("key '" ++ key ++ "' is not a valid field") 422
    | some transform =>
      if transform.«matches» value then
        match transform.converts with
        | none => applyUpdates (setField p key (.raw value)) rest
        | some convFn =>
          match convFn value with
          | none => .crash p "InvalidOperation"
          | some converted => applyUpdates (setField p key converted) rest
      else
        .fail p ("field '" ++ key ++ "' has an invalid value (" ++ pyStr value ++ ")") 422

/-- Python `len(data)`: defined on strings, lists and dicts; a `TypeError`
(no `len()`) on `None`, booleans and numbers, modelled by `none`. -/
def pyLen : JVal → Option Nat
  | .jstr s => some s.length
  | .jarr xs => some xs.length
  | .jobj fs => some fs.length
  | _ => none

/-- Response of the update endpoint: 200 with serialized product, a
plain-text error tuple, or an unhandled Python exception (crash). -/
inductive UpdateResult where
  | ok (body : JVal) : UpdateResult
  | err (body : String) (status : Nat) : UpdateResult
  | crash (msg : String) : UpdateResult

/-- The `update_product` handler (`PUT /products/{id}`): 404 when the id is
absent; `len(data) <= 0` → 422 `body must be non-empty` (a `TypeError`
when the body has no `len`); then `data.items()` (an `AttributeError` on a
non-dict) drives the field-update loop; only a fully successful loop
persists via `product.update()`.  Returns the response together with the
resulting store. -/
def update_product (st : Store) (product_id : Nat) (data : JVal) :
    UpdateResult × Store :=
  match Store.findProd st product_id with
  | none => (.err "product not found" 404, st)
  | some product =>
    match pyLen data with
    | none => (.crash "TypeError: object has no len()", st)
    | some n =>
      if n ≤ 0 then (.err "body must be non-empty" 422, st)
      else
        match data with
        | .jobj items =>
          (match applyUpdates product items with
           | .ok p => (.ok (serialize p), Store.persistUpdate st p)
           | .fail _ body status => (.err body status, st)
           | .crash _ msg => (.crash msg, st))
        | _ => (.crash "AttributeError: object has no attribute items", st)

/-! Spec-side restatement of the filter dispatch, and fixtures. -/

/-- Turning a filter's result into the endpoint response: an error is
surfaced as the (body, status) tuple, a product list is serialized. -/
def filterResponse : FilterResult → ListResponse
  | .err e => .err e.body e.status
  | .ok products => .body (products.map serialize)

/-- Restated from the spec's words, for comparison with `list_products`:
the first key present in the query, in the fixed order name, category,
available, has its handler applied; subsequent keys are ignored; when none
of the three keys is present, the response is all products, serialized. -/
def firstFilterSpec (st : Store) (args : List (String × String)) : ListResponse :=
  match argsGet args "name" with
  | some v => filterResponse (filter_by_name st v)
  | none =>
    match argsGet args "category" with
    | some v => filterResponse (filter_by_category st v)
    | none =>
      match argsGet args "available" with
      | some v => filterResponse (filter_by_availability st v)
      | none => .body ((Store.allProducts st).map serialize)

/-- A concrete persisted product (the spec's end-to-end example). -/
def sampleProduct : Product :=
  { id := 1, name := "Fedora", description := "A red hat",
    price := ⟨1250, 2⟩, available := true, category := .CLOTHS }

/-- A store holding just `sampleProduct`. -/
def sampleStore : Store := [sampleProduct]

/-! Helper lemmas about the update loop and handler. -/

/-- Every failure produced by the field-update loop carries status 422. -/
theorem applyUpdates_fail_status (l : List (String × JVal)) :
    ∀ p q b s, applyUpdates p l = .fail q b s → s = 422 := by
  induction l with
  | nil => intro p q b s h; exact absurd h (by simp [applyUpdates])
  | cons kv rest ih =>
    intro p q b s h
    obtain ⟨key, value⟩ := kv
    cases hu : updateable key with
    | none => simp only [applyUpdates, hu] at h; cases h; rfl
    | some t =>
      by_cases hm : t.«matches» value = true
      · simp only [applyUpdates, hu, if_pos hm] at h
        cases hc : t.converts with
        | none => simp only [hc] at h; exact ih _ _ _ _ h
        | some cf =>
          simp only [hc] at h
          cases hv : cf value with
          | none => simp only [hv] at h; cases h
          | some c => simp only [hv] at h; exact ih _ _ _ _ h
      · simp only [applyUpdates, hu, if_neg hm] at h; cases h; rfl

/-- The field-update loop is sequential: entries after a prefix are
processed against the entity as already mutated by the prefix, and a
prefix failure or crash propagates unchanged. -/
theorem applyUpdates_append (l₁ : List (String × JVal)) (p : Product)
    (l₂ : List (String × JVal)) :
    applyUpdates p (l₁ ++ l₂) =
      match applyUpdates p l₁ with
      | .ok q => applyUpdates q l₂
      | .fail q b s => .fail q b s
      | .crash q m => .crash q m := by
  induction l₁ generalizing p with
  | nil => simp [applyUpdates]
  | cons kv rest ih =>
    obtain ⟨key, value⟩ := kv
    cases hu : updateable key with
    | none => simp only [List.cons_append, applyUpdates, hu]
    | some t =>
      by_cases hm : t.«matches» value = true
      · simp only [List.cons_append, applyUpdates, hu, if_pos hm]
        cases hc : t.converts with
        | none => exact ih _
        | some cf =>
          cases hv : cf value with
          | none => simp only [hv]
          | some c => simp only [hv]; exact ih _
      · simp only [List.cons_append, applyUpdates, hu, if_neg hm]

/-- Shape of `update_product` on a found product and a non-empty JSON
object body: the response is decided by the field-update loop, and only a
fully successful loop persists. -/
theorem update_product_obj (st : Store) (pid : Nat) (p : Product)
    (data : List (String × JVal)) (hfind : Store.findProd st pid = some p)
    (hne : data ≠ []) :
    update_product st pid (.jobj data) =
      match applyUpdates p data with
      | .ok q => (.ok (serialize q), Store.persistUpdate st q)
      | .fail _ b s => (.err b s, st)
      | .crash _ m => (.crash m, st) := by
  have hlen : ¬ data.length ≤ 0 := by
    simp only [Nat.le_zero, List.length_eq_zero]
    exact hne
  rw [update_product, hfind]
  simp only [pyLen, if_neg hlen]

/-! Claim theorems. -/

/-- C1: for every GET /products request, the list handler scans the
registered filter list in the fixed order (name, category, available) and
applies the handler of the first key present in the query parameters,
ignoring every subsequent registered key even if it is also present; if
none of the three keys is present, the response is the list of all
products, serialized. -/
theorem claim_C1_first_filter_wins (st : Store) (args : List (String × String)) :
    list_products st args = firstFilterSpec st args := by
  rw [list_products, filters, firstFilterSpec]
  cases hn : argsGet args "name" with
  | some v =>
    simp only [dispatchFilters, hn]
    cases filter_by_name st v <;> rfl
  | none =>
    cases hc : argsGet args "category" with
    | some v =>
      simp only [dispatchFilters, hn, hc]
      cases filter_by_category st v <;> rfl
    | none =>
      cases ha : argsGet args "available" with
      | some v =>
        simp only [dispatchFilters, hn, hc, ha]
        cases filter_by_availability st v <;> rfl
      | none => simp only [dispatchFilters, hn, hc, ha]

/-- C2: for every PUT /products/id request on an existing product, the
persist step is invoked only if every entry of the body mapping passes its
field lookup and type predicate; if any entry fails, the handler returns
the 422 error without persisting, although fields processed earlier in the
mapping's insertion order have already been assigned on the in-memory
entity (the loop is sequential on the mutated entity, with no rollback). -/
theorem claim_C2_persist_only_on_full_success (st : Store) (pid : Nat)
    (data : List (String × JVal)) (p : Product)
    (hfind : Store.findProd st pid = some p) (hne : data ≠ []) :
    (∀ q, applyUpdates p data = .ok q →
        update_product st pid (.jobj data) = (.ok (serialize q), Store.persistUpdate st q))
    ∧ (∀ q b s, applyUpdates p data = .fail q b s →
        s = 422 ∧ update_product st pid (.jobj data) = (.err b 422, st))
    ∧ (∀ l₁ l₂, data = l₁ ++ l₂ →
        applyUpdates p data =
          match applyUpdates p l₁ with
          | .ok q => applyUpdates q l₂
          | .fail q b s => .fail q b s
          | .crash q m => .crash q m) := by
  refine ⟨?_, ?_, ?_⟩
  · intro q h
    simp only [update_product_obj st pid p data hfind hne, h]
  · intro q b s h
    have h422 := applyUpdates_fail_status data p q b s h
    subst h422
    exact ⟨rfl, by simp only [update_product_obj st pid p data hfind hne, h]⟩
  · intro l₁ l₂ hdata
    subst hdata
    exact applyUpdates_append l₁ p l₂

/-- Witness for C2: on the sample store, the body
`{"description": "x", "available": 10}` assigns the description on the
in-memory entity, then fails on `available` with 422 and does not
persist; the one-field body `{"description": "x"}` persists. -/
theorem claim_C2_witness :
    (∀ q, applyUpdates sampleProduct [("description", JVal.jstr "x"), ("available", JVal.jint 10)] = .ok q →
        update_product sampleStore 1 (.jobj [("description", JVal.jstr "x"), ("available", JVal.jint 10)]) =
          (.ok (serialize q), Store.persistUpdate sampleStore q))
    ∧ (∀ q b s, applyUpdates sampleProduct [("description", JVal.jstr "x"), ("available", JVal.jint 10)] = .fail q b s →
        s = 422 ∧ update_product sampleStore 1 (.jobj [("description", JVal.jstr "x"), ("available", JVal.jint 10)]) =
          (.err b 422, sampleStore))
    ∧ (∀ l₁ l₂, [("description", JVal.jstr "x"), ("available", JVal.jint 10)] = l₁ ++ l₂ →
        applyUpdates sampleProduct [("description", JVal.jstr "x"), ("available", JVal.jint 10)] =
          match applyUpdates sampleProduct l₁ with
          | .ok q => applyUpdates q l₂
          | .fail q b s => .fail q b s
          | .crash q m => .crash q m) :=
  claim_C2_persist_only_on_full_success sampleStore 1
    [("description", JVal.jstr "x"), ("available", JVal.jint 10)] sampleProduct rfl
    (List.cons_ne_nil _ _)

/-- C6: for every PUT /products/id request on an existing product whose
body is the empty mapping, the handler fails with 422 and message
`body must be non-empty` before any field entry is processed, and the
store is unchanged. -/
theorem claim_C6_empty_body (st : Store) (pid : Nat) (p : Product)
    (hfind : Store.findProd st pid = some p) :
    update_product st pid (.jobj []) = (.err "body must be non-empty" 422, st) := by
  rw [update_product, hfind]
  simp [pyLen]

/-- Witness for C6 at the sample store. -/
theorem claim_C6_witness :
    update_product sampleStore 1 (.jobj []) = (.err "body must be non-empty" 422, sampleStore) :=
  claim_C6_empty_body sampleStore 1 sampleProduct rfl

/-- On a found product and a body that is not a JSON object, the update
handler either raises an unhandled exception (`TypeError` when the body
has no `len`, `AttributeError` when it has a length but no `items`) or,
for an empty array or empty string, returns the 422 `body must be
non-empty` error; the store is never touched. -/
theorem update_product_non_obj (st : Store) (pid : Nat) (p : Product)
    (data : JVal) (hfind : Store.findProd st pid = some p)
    (hobj : ∀ fields, data ≠ .jobj fields) :
    update_product st pid data = (.crash "TypeError: object has no len()", st)
    ∨ update_product st pid data = (.err "body must be non-empty" 422, st)
    ∨ update_product st pid data = (.crash "AttributeError: object has no attribute items", st) := by
  cases data with
  | jobj fields => exact absurd rfl (hobj fields)
  | jnull => left; rw [update_product, hfind]; rfl
  | jbool b => left; rw [update_product, hfind]; rfl
  | jint n => left; rw [update_product, hfind]; rfl
  | jstr s =>
    by_cases hs : s.length ≤ 0
    · right; left; rw [update_product, hfind]; simp [pyLen, hs]
    · right; right; rw [update_product, hfind]; simp [pyLen, hs]
  | jarr xs =>
    by_cases hs : xs.length ≤ 0
    · right; left; rw [update_product, hfind]; simp [pyLen, hs]
    · right; right; rw [update_product, hfind]; simp [pyLen, hs]

/-- C3 counterexample: on the sample store, a PUT body that is the JSON
array `[1]` makes the handler crash with an `AttributeError`; it does not
produce a 400-class `body must be a JSON object` error (no such message
exists in the code). -/
theorem claim_C3_counterexample :
    (update_product sampleStore 1 (.jarr [.jint 1])).1 =
      .crash "AttributeError: object has no attribute items"
    ∧ (update_product sampleStore 1 (.jarr [.jint 1])).1 ≠ .err "body must be a JSON object" 400
    ∧ (update_product sampleStore 1 (.jarr [.jint 1])).1 ≠ .err "body must be a JSON object" 422 := by
  refine ⟨rfl, ?_, ?_⟩ <;> intro h <;> exact UpdateResult.noConfusion h

/-- C3 amended: for every PUT /products/id request on an existing product
whose body is not a JSON object mapping, the handler never returns an
error with message `body must be a JSON object`; instead it raises an
unhandled exception, except that an empty JSON array or empty JSON string
body yields the 422 `body must be non-empty` error; the store is
unchanged. -/
theorem claim_C3_amended_non_object_body (st : Store) (pid : Nat) (p : Product)
    (data : JVal) (hfind : Store.findProd st pid = some p)
    (hobj : ∀ fields, data ≠ .jobj fields) :
    ((∃ m, (update_product st pid data).1 = .crash m)
      ∨ (update_product st pid data).1 = .err "body must be non-empty" 422)
    ∧ (update_product st pid data).2 = st
    ∧ ∀ s, (update_product st pid data).1 ≠ .err "body must be a JSON object" s := by
  rcases update_product_non_obj st pid p data hfind hobj with h | h | h <;> rw [h]
  · exact ⟨Or.inl ⟨_, rfl⟩, rfl, fun s h' => UpdateResult.noConfusion h'⟩
  · refine ⟨Or.inr rfl, rfl, fun s h' => ?_⟩
    injection h' with h1 h2
    exact absurd h1 (by decide)
  · exact ⟨Or.inl ⟨_, rfl⟩, rfl, fun s h' => UpdateResult.noConfusion h'⟩

/-- Witness for the amended C3, at the sample store with body `[1]`. -/
theorem claim_C3_amended_witness :
    ((∃ m, (update_product sampleStore 1 (.jarr [.jint 1])).1 = .crash m)
      ∨ (update_product sampleStore 1 (.jarr [.jint 1])).1 = .err "body must be non-empty" 422)
    ∧ (update_product sampleStore 1 (.jarr [.jint 1])).2 = sampleStore
    ∧ ∀ s, (update_product sampleStore 1 (.jarr [.jint 1])).1 ≠ .err "body must be a JSON object" s :=
  claim_C3_amended_non_object_body sampleStore 1 sampleProduct (.jarr [.jint 1]) rfl
    (fun _ h => JVal.noConfusion h)

/-- C4: in the update loop, once processing reaches an `available` entry
(every earlier entry succeeded), a value that is not strictly a boolean is
rejected with 422 and message `field 'available' has an invalid value
(<value>)` without persisting, while a strict boolean passes the predicate
and is assigned unchanged to the entity's `available` field. -/
theorem claim_C4_available_strict_bool (st : Store) (pid : Nat) (p q : Product)
    (pre rest : List (String × JVal)) (v : JVal)
    (hfind : Store.findProd st pid = some p)
    (hpre : applyUpdates p pre = .ok q) :
    ((∀ b, v ≠ .jbool b) →
      update_product st pid (.jobj (pre ++ ("available", v) :: rest)) =
        (.err ("field 'available' has an invalid value (" ++ pyStr v ++ ")") 422, st))
    ∧ (∀ b, v = .jbool b →
      applyUpdates p (pre ++ ("available", v) :: rest) =
        applyUpdates { q with available := b } rest) := by
  constructor
  · intro hv
    have hloop : applyUpdates p (pre ++ ("available", v) :: rest) =
        .fail q ("field 'available' has an invalid value (" ++ pyStr v ++ ")") 422 := by
      rw [applyUpdates_append, hpre]
      show applyUpdates q (("available", v) :: rest) = _
      cases v with
      | jbool b => exact absurd rfl (hv b)
      | jnull => rfl
      | jint n => rfl
      | jstr s => rfl
      | jarr xs => rfl
      | jobj fs => rfl
    have hne : pre ++ ("available", v) :: rest ≠ [] := by simp
    simp only [update_product_obj st pid p _ hfind hne, hloop]
  · intro b hb
    subst hb
    rw [applyUpdates_append, hpre]
    rfl

/-- Witness for C4: on the sample store, `{"available": 10}` yields 422
with the interpolated message, and the store is unchanged. -/
theorem claim_C4_witness :
    update_product sampleStore 1 (.jobj [("available", JVal.jint 10)]) =
      (.err "field 'available' has an invalid value (10)" 422, sampleStore) := by
  have h := (claim_C4_available_strict_bool sampleStore 1 sampleProduct sampleProduct
      [] [] (JVal.jint 10) rfl rfl).1 (fun b h => JVal.noConfusion h)
  exact h

/-- C5: in the update loop, once processing reaches an entry whose key is
outside the fixed registry (name, description, available, price,
category), the handler returns 422 with message
`key '<field>' is not a valid field`, independently of every later entry
of the body, and the store is unchanged. -/
theorem claim_C5_unknown_key (st : Store) (pid : Nat) (p q : Product)
    (pre rest : List (String × JVal)) (key : String) (v : JVal)
    (hfind : Store.findProd st pid = some p)
    (hkey : key ∉ (["name", "description", "available", "price", "category"] : List String))
    (hpre : applyUpdates p pre = .ok q) :
    applyUpdates p (pre ++ (key, v) :: rest) =
      .fail q ("key '" ++ key ++ "' is not a valid field") 422
    ∧ update_product st pid (.jobj (pre ++ (key, v) :: rest)) =
      (.err ("key '" ++ key ++ "' is not a valid field") 422, st) := by
  have hnone : updateable key = none := by
    simp only [List.mem_cons, List.not_mem_nil, or_false, not_or] at hkey
    obtain ⟨h1, h2, h3, h4, h5⟩ := hkey
    simp [updateable, h1, h2, h3, h4, h5]
  have hloop : applyUpdates p (pre ++ (key, v) :: rest) =
      .fail q ("key '" ++ key ++ "' is not a valid field") 422 := by
    rw [applyUpdates_append, hpre]
    show applyUpdates q ((key, v) :: rest) = _
    rw [applyUpdates, hnone]
  have hne : pre ++ (key, v) :: rest ≠ [] := by simp
  refine ⟨hloop, ?_⟩
  simp only [update_product_obj st pid p _ hfind hne, hloop]

/-- Witness for C5: on the sample store, the body
`{"description": "d", "bad_field": "x", "name": "z"}` yields 422
mentioning `bad_field`, and the store is unchanged. -/
theorem claim_C5_witness :
    update_product sampleStore 1
        (.jobj [("description", JVal.jstr "d"), ("bad_field", JVal.jstr "x"), ("name", JVal.jstr "z")]) =
      (.err "key 'bad_field' is not a valid field" 422, sampleStore) := by
  have h := (claim_C5_unknown_key sampleStore 1 sampleProduct
      { sampleProduct with description := "d" } [("description", JVal.jstr "d")]
      [("name", JVal.jstr "z")] "bad_field" (JVal.jstr "x") rfl (by decide) rfl).2
  exact h

/-- C7: for every GET /products request whose first-matched query key is
`available` (neither `name` nor `category` is present), the handler fails
with a 400 error and message `available value '<value>' is not true or
false` unless the value is exactly the literal `true` or `false`; on
`true` it returns the serialized products with `available = true`, on
`false` those with `available = false`. -/
theorem claim_C7_availability_filter (st : Store) (args : List (String × String)) (v : String)
    (hname : argsGet args "name" = none) (hcat : argsGet args "category" = none)
    (hav : argsGet args "available" = some v) :
    (v ≠ "true" → v ≠ "false" →
      list_products st args = .err ("available value '" ++ v ++ "' is not true or false") 400)
    ∧ (v = "true" → list_products st args =
        .body ((Store.find_by_availability st true).map serialize))
    ∧ (v = "false" → list_products st args =
        .body ((Store.find_by_availability st false).map serialize)) := by
  have hdisp : list_products st args = filterResponse (filter_by_availability st v) := by
    rw [list_products, filters]
    simp only [dispatchFilters, hname, hcat, hav]
    cases filter_by_availability st v <;> rfl
  refine ⟨?_, ?_, ?_⟩
  · intro h1 h2
    rw [hdisp, filter_by_availability]
    rw [if_neg (by simp [h1, h2])]
    rfl
  · intro hv; subst hv; rw [hdisp]; rfl
  · intro hv; subst hv; rw [hdisp]; rfl

/-- Witness for C7: `GET /products?available=maybe` on the sample store
returns 400 with the interpolated message. -/
theorem claim_C7_witness :
    list_products sampleStore [("available", "maybe")] =
      .err "available value 'maybe' is not true or false" 400 :=
  (claim_C7_availability_filter sampleStore [("available", "maybe")] "maybe"
      rfl rfl rfl).1 (by decide) (by decide)

/-- C8: for every GET /products request whose first-matched query key is
`name`, an empty value yields 400 with message `name must not be empty`
(for every store, so no name lookup is involved); a non-empty value
returns exactly the serialized products whose name equals the value. -/
theorem claim_C8_name_filter (st : Store) (args : List (String × String)) (v : String)
    (hname : argsGet args "name" = some v) :
    (v = "" → list_products st args = .err "name must not be empty" 400)
    ∧ (v ≠ "" → list_products st args =
        .body (((Store.allProducts st).filter (fun p => p.name = v)).map serialize)) := by
  have hdisp : list_products st args = filterResponse (filter_by_name st v) := by
    rw [list_products, filters]
    simp only [dispatchFilters, hname]
    cases filter_by_name st v <;> rfl
  constructor
  · intro hv; subst hv; rw [hdisp]; rfl
  · intro hv; rw [hdisp, filter_by_name, if_neg hv]; rfl

/-- Witness for C8: `GET /products?name=` on the sample store returns 400
`name must not be empty`. -/
theorem claim_C8_witness :
    list_products sampleStore [("name", "")] = .err "name must not be empty" 400 :=
  (claim_C8_name_filter sampleStore [("name", "")] "" rfl).1 rfl

/-- C9 counterexample: on the sample store, the update request with body
`{"name": ""}` is accepted (200 with the serialized product) and persists
a product whose name is the empty string, so the update path does not
preserve the non-empty-name invariant. -/
theorem claim_C9_counterexample :
    (update_product sampleStore 1 (.jobj [("name", JVal.jstr "")])).1 =
      .ok (serialize { sampleProduct with name := "" })
    ∧ (update_product sampleStore 1 (.jobj [("name", JVal.jstr "")])).2 =
      [{ sampleProduct with name := "" }]
    ∧ ({ sampleProduct with name := "" } : Product).name = "" :=
  ⟨rfl, rfl, rfl⟩

/-- C9 amended: the update path's `name` predicate only checks that the
value is text, so on every existing product the body `{"name": ""}` is
accepted and the persist step stores the product with the empty name. -/
theorem claim_C9_amended_empty_name_persisted (st : Store) (pid : Nat) (p : Product)
    (hfind : Store.findProd st pid = some p) :
    update_product st pid (.jobj [("name", JVal.jstr "")]) =
      (.ok (serialize { p with name := "" }),
       Store.persistUpdate st { p with name := "" }) := by
  have hne : [("name", JVal.jstr "")] ≠ ([] : List (String × JVal)) := List.cons_ne_nil _ _
  have hloop : applyUpdates p [("name", JVal.jstr "")] = .ok { p with name := "" } := rfl
  simp only [update_product_obj st pid p _ hfind hne, hloop]

/-- Witness for the amended C9 at the sample store. -/
theorem claim_C9_amended_witness :
    update_product sampleStore 1 (.jobj [("name", JVal.jstr "")]) =
      (.ok (serialize { sampleProduct with name := "" }),
       Store.persistUpdate sampleStore { sampleProduct with name := "" }) :=
  claim_C9_amended_empty_name_persisted sampleStore 1 sampleProduct rfl

/-- C10: the `price` transform accepts every string value (its predicate
only checks for text) and its converter is the unguarded decimal parse,
which fails on `"abc"`; hence on every existing product the body
`{"price": "abc"}` makes the handler raise an unhandled exception
(`InvalidOperation`) instead of returning a 422 validation error. -/
theorem claim_C10_price_conversion_unguarded (st : Store) (pid : Nat) (p : Product)
    (hfind : Store.findProd st pid = some p) :
    (∃ t, updateable "price" = some t
      ∧ (∀ s, t.«matches» (.jstr s) = true)
      ∧ t.converts = some decimalConvert)
    ∧ decimalConvert (.jstr "abc") = none
    ∧ update_product st pid (.jobj [("price", JVal.jstr "abc")]) =
        (.crash "InvalidOperation", st) := by
  refine ⟨⟨_, rfl, fun s => rfl, rfl⟩, rfl, ?_⟩
  have hne : [("price", JVal.jstr "abc")] ≠ ([] : List (String × JVal)) := List.cons_ne_nil _ _
  have hloop : applyUpdates p [("price", JVal.jstr "abc")] = .crash p "InvalidOperation" := rfl
  simp only [update_product_obj st pid p _ hfind hne, hloop]

/-- Witness for C10 at the sample store. -/
theorem claim_C10_witness :
    update_product sampleStore 1 (.jobj [("price", JVal.jstr "abc")]) =
      (.crash "InvalidOperation", sampleStore) :=
  (claim_C10_price_conversion_unguarded sampleStore 1 sampleProduct rfl).2.2

end ProductService

